import Mathlib

/-!
Shallow embedding of the MCP client connection layer of Ludus-FastMCP:
`ludus_mcp/mcp_client/connection_manager.py` (MCPConnectionManager),
`ludus_mcp/mcp_client/health_monitor.py` (HealthMonitor) and
`ludus_mcp/mcp_client/unified_client.py` (UnifiedMCPClient).

External effects (subprocess spawning, pipe writes/reads, wall-clock time)
are modelled by explicit environment/outcome parameters; Python exceptions
are modelled with `Except` results (the error carries the mutated state at
the point the exception is raised, matching Python's in-place mutation).
-/

namespace LudusMCP

/-- JSON values, as passed over the JSON-RPC pipe and inside responses. -/
inductive Json where
  | null : Json
  | bool : Bool → Json
  | num : Int → Json
  | str : String → Json
  | arr : List Json → Json
  | obj : List (String × Json) → Json

/-- Python truthiness of a JSON value (`if tools` etc.). -/
def pyTruthy : Json → Bool
  | .null => false
  | .bool b => b
  | .num n => n != 0
  | .str s => !s.isEmpty
  | .arr xs => !xs.isEmpty
  | .obj fs => !fs.isEmpty

/-- Whether the character list `hay` starts with `needle`. -/
def charsStartWith : List Char → List Char → Bool
  | [], _ => true
  | _ :: _, [] => false
  | a :: as, b :: bs => a == b && charsStartWith as bs

/-- Whether `needle` occurs as a contiguous sublist of `hay`. -/
def charsContain (needle : List Char) : List Char → Bool
  | [] => needle.isEmpty
  | c :: cs => charsStartWith needle (c :: cs) || charsContain needle cs

/-- Python substring test: `needle in hay` for strings. -/
def strInStr (needle hay : String) : Bool :=
  charsContain needle.data hay.data

/-- Result of evaluating Python `x in y`: a boolean, or a TypeError. -/
inductive PyInRes where
  | ok : Bool → PyInRes
  | typeError : PyInRes
deriving DecidableEq, Repr

/-- Whether a JSON value equals a given Python string (Python `==`:
cross-type comparison is simply unequal). -/
def jsonEqStr (needle : String) : Json → Bool
  | .str s => s == needle
  | _ => false

/-- Python membership `needle in j` for a string needle: key lookup on a
dict, element membership in a list, substring test on a string; TypeError
on other values. -/
def pyKeyIn (needle : String) : Json → PyInRes
  | .obj fs => .ok (fs.any (fun p => p.1 == needle))
  | .arr xs => .ok (xs.any (jsonEqStr needle))
  | .str s => .ok (strInStr needle s)
  | _ => .typeError

/-- Lookup of a key in a JSON object field list (`dict.get`). -/
def jsonGet (fields : List (String × Json)) (key : String) : Option Json :=
  (fields.find? (fun p => p.1 == key)).map (fun p => p.2)

/-- State of one `MCPConnectionManager` instance (its `self._...` fields).
The subprocess handle `_server_process` is an optional pid; `processAlive`
models `poll() is None` for the held handle. -/
structure ManagerState where
  serverProcess : Option Nat
  processAlive : Bool
  serverCommand : String
  serverEnv : List (String × String)
  clients : List Nat
  isShuttingDown : Bool
  requestId : Nat
deriving DecidableEq, Repr

/-- State of the manager's `HealthMonitor` (time as an abstract Nat). -/
structure HealthState where
  lastCheck : Option Nat
  consecutiveFailures : Nat
  maxFailures : Nat
deriving DecidableEq, Repr

/-- Combined state: the manager together with its health monitor. -/
structure SysState where
  mgr : ManagerState
  health : HealthState
deriving DecidableEq, Repr

/-- Fields set by `MCPConnectionManager.__init__`. -/
def initManagerState : ManagerState :=
  { serverProcess := none
    processAlive := false
    serverCommand := "ludus-fastmcp"
    serverEnv := []
    clients := []
    isShuttingDown := false
    requestId := 0 }

/-- Fields set by `HealthMonitor.__init__`. -/
def initHealthState : HealthState :=
  { lastCheck := none
    consecutiveFailures := 0
    maxFailures := 3 }

/-- State of a freshly instantiated manager. -/
def initSysState : SysState :=
  { mgr := initManagerState, health := initHealthState }

/-- `MCPConnectionManager.is_server_alive`. -/
def is_server_alive (m : ManagerState) : Bool :=
  match m.serverProcess with
  | none => false
  | some _ => m.processAlive

/-- `MCPConnectionManager.configure`: stores the command and replaces the
whole environment map (`env or {}`). -/
def configure (command : String) (env : Option (List (String × String)))
    (s : SysState) : SysState :=
  { s with mgr := { s.mgr with serverCommand := command, serverEnv := env.getD [] } }

/-- Environment behaviour of `terminate`/`kill`/`wait` during `cleanup`:
the graceful wait finishes within 2s, times out, or the teardown raises
an exception (which `cleanup` catches). -/
inductive TermEnv where
  | waitOk : TermEnv
  | waitTimeout : TermEnv
  | raiseExc : TermEnv
deriving DecidableEq, Repr

/-- Signals sent to the subprocess during `cleanup`, as an observable trace. -/
inductive KillAct where
  | terminate : KillAct
  | kill : KillAct
deriving DecidableEq, Repr

/-- `MCPConnectionManager.cleanup`: re-entrancy guard on `_is_shutting_down`,
clears the client list, then tears down the subprocess if a handle exists
(graceful: terminate, wait up to 2s, escalate to kill on timeout; forced:
kill). Exceptions during teardown are caught; the handle is cleared in a
`finally` block. Returns the new state and the trace of signals sent. -/
def cleanup (graceful : Bool) (tenv : TermEnv) (s : SysState) :
    SysState × List KillAct :=
  if s.mgr.isShuttingDown then (s, [])
  else
    let m0 := { s.mgr with isShuttingDown := true, clients := [] }
    match m0.serverProcess with
    | none => ({ s with mgr := { m0 with isShuttingDown := false } }, [])
    | some _ =>
      let acts : List KillAct :=
        if graceful then
          match tenv with
          | .waitOk => [.terminate]
          | .waitTimeout => [.terminate, .kill]
          | .raiseExc => [.terminate]
        else [.kill]
      ({ s with
          mgr := { m0 with
                    serverProcess := none
                    processAlive := false
                    isShuttingDown := false } },
       acts)

/-- Outcome of one `_start_server` attempt, as decided by the environment:
the command is not found (FileNotFoundError → RuntimeError), the spawned
process dies within the 0.2s startup grace (RuntimeError), the `initialize`
handshake fails (RuntimeError), or the server starts and initializes. The
handshake goes through `_send_request`, so it consumes one request id
whenever it is attempted. -/
inductive StartOutcome where
  | notFound : StartOutcome
  | diedEarly : Nat → StartOutcome
  | initFail : Nat → StartOutcome
  | started : Nat → StartOutcome
deriving DecidableEq, Repr

/-- `MCPConnectionManager._start_server`: no-op if already alive; reaps a
dead handle; spawns the subprocess and runs the `initialize` handshake.
An `Except.error` carries the state at the point the RuntimeError is
raised (Python mutates in place before raising). -/
def start_server (out : StartOutcome) (s : SysState) : Except SysState SysState :=
  if is_server_alive s.mgr then .ok s
  else
    let s1 : SysState :=
      match s.mgr.serverProcess with
      | some _ => { s with mgr := { s.mgr with serverProcess := none } }
      | none => s
    match out with
    | .notFound => .error s1
    | .diedEarly pid =>
      .error { s1 with mgr := { s1.mgr with serverProcess := some pid, processAlive := false } }
    | .initFail pid =>
      .error { s1 with mgr := { s1.mgr with
                                 serverProcess := some pid
                                 processAlive := true
                                 requestId := s1.mgr.requestId + 1 } }
    | .started pid =>
      .ok { s1 with mgr := { s1.mgr with
                              serverProcess := some pid
                              processAlive := true
                              requestId := s1.mgr.requestId + 1 } }

/-- Outcome of one `_send_request` round trip, as decided by the
environment: BrokenPipeError on the write, a read timeout, EOF on the
read, a non-JSON response line, a JSON-RPC `error` response, or a
successful response whose `result` field is the given value. -/
inductive SendOutcome where
  | writeBroken : SendOutcome
  | readTimeout : SendOutcome
  | readEof : SendOutcome
  | badJson : SendOutcome
  | errorResp : SendOutcome
  | okResp : Json → SendOutcome

/-- Result of `_send_request`: the returned `result` value or a raised
RuntimeError, the state afterwards, and the ids of requests actually
written to the subprocess stdin during the call. -/
structure SendRes where
  outcome : Except Unit Json
  state : SysState
  written : List Nat

/-- `MCPConnectionManager._send_request`: raises if the server is not
alive (before touching the counter); otherwise increments `_request_id`,
writes the request with the new id, and reads one response line. All
failure modes raise RuntimeError; a BrokenPipeError on the write means the
request was not delivered. -/
def send_request (out : SendOutcome) (s : SysState) : SendRes :=
  if !(is_server_alive s.mgr) then ⟨.error (), s, []⟩
  else
    let rid := s.mgr.requestId + 1
    let s1 : SysState := { s with mgr := { s.mgr with requestId := rid } }
    match out with
    | .writeBroken => ⟨.error (), s1, []⟩
    | .readTimeout => ⟨.error (), s1, [rid]⟩
    | .readEof => ⟨.error (), s1, [rid]⟩
    | .badJson => ⟨.error (), s1, [rid]⟩
    | .errorResp => ⟨.error (), s1, [rid]⟩
    | .okResp r => ⟨.ok r, s1, [rid]⟩

/-- Outcome of the health probe inside `check_mcp_server`, as decided by
the environment: the 5s `wait_for` times out, `_send_request` raises some
exception, or it returns a `result` value. -/
inductive ProbeRes where
  | timeout : ProbeRes
  | exc : ProbeRes
  | resp : Json → ProbeRes

/-- `HealthMonitor.check_mcp_server`: records the check time; if the
subprocess is not alive, increments the failure counter and returns false
without any round trip; otherwise probes `tools/list` (one request id is
consumed) and succeeds exactly when the result is truthy and contains a
`tools` key (a TypeError from the `in` test would be caught by the generic
handler and counts as failure, like every other failure). -/
def check_mcp_server (now : Nat) (probe : ProbeRes) (s : SysState) :
    Bool × SysState :=
  let h0 : HealthState := { s.health with lastCheck := some now }
  if !(is_server_alive s.mgr) then
    (false, { s with health := { h0 with consecutiveFailures := h0.consecutiveFailures + 1 } })
  else
    let m1 : ManagerState := { s.mgr with requestId := s.mgr.requestId + 1 }
    match probe with
    | .resp tools =>
      let healthy := pyTruthy tools &&
        (match pyKeyIn "tools" tools with
          | .ok b => b
          | .typeError => false)
      if healthy then
        (true, { mgr := m1, health := { h0 with consecutiveFailures := 0 } })
      else
        (false, { mgr := m1, health := { h0 with consecutiveFailures := h0.consecutiveFailures + 1 } })
    | .timeout =>
      (false, { mgr := m1, health := { h0 with consecutiveFailures := h0.consecutiveFailures + 1 } })
    | .exc =>
      (false, { mgr := m1, health := { h0 with consecutiveFailures := h0.consecutiveFailures + 1 } })

/-- `MCPConnectionManager._kill_zombie_processes` on the manager's own
handle: reaps the handle when it exists but the process is dead. (The
psutil scan for orphaned system processes touches no manager state.) -/
def kill_zombie_processes (s : SysState) : SysState :=
  if s.mgr.serverProcess.isSome && !(is_server_alive s.mgr) then
    { s with mgr := { s.mgr with serverProcess := none } }
  else s

/-- `MCPConnectionManager._restart_server`: forced cleanup, then a fresh
start; a start failure propagates as a RuntimeError. -/
def restart_server (tenv : TermEnv) (out : StartOutcome) (s : SysState) :
    Except SysState SysState :=
  start_server out (cleanup false tenv s).1

/-- `MCPConnectionManager._recover_connection`: kill zombies, then restart
the server; a restart failure propagates. -/
def recover_connection (tenv : TermEnv) (out : StartOutcome) (s : SysState) :
    Except SysState SysState :=
  restart_server tenv out (kill_zombie_processes s)

/-- Environment for one `ensure_connected` call: the outcome of the
initial start attempt (used only when the server is not alive on entry),
the first health probe, the teardown behaviour and start outcome of the
recovery cycle, and the second health probe (the latter three used only
when the first probe is unhealthy). -/
structure EnsureEnv where
  startOut : StartOutcome
  now1 : Nat
  probe1 : ProbeRes
  ctermEnv : TermEnv
  recoverOut : StartOutcome
  now2 : Nat
  probe2 : ProbeRes

/-- `MCPConnectionManager.ensure_connected`: if the server is not alive,
attempt `_start_server`, catching any exception and returning false; then
run a health check; if unhealthy, run `_recover_connection` — whose
exceptions are NOT caught — and re-check; return the final health
boolean. -/
def ensure_connected (env : EnsureEnv) (s : SysState) :
    Except SysState (Bool × SysState) :=
  let step1 : Bool × SysState :=
    if is_server_alive s.mgr then (false, s)
    else
      match start_server env.startOut s with
      | .ok s1 => (false, s1)
      | .error s1 => (true, s1)
  if step1.1 then .ok (false, step1.2)
  else
    match check_mcp_server env.now1 env.probe1 step1.2 with
    | (true, s2) => .ok (true, s2)
    | (false, s2) =>
      match recover_connection env.ctermEnv env.recoverOut s2 with
      | .error sE => .error sE
      | .ok s3 =>
        let r := check_mcp_server env.now2 env.probe2 s3
        .ok r

/-- Environment for one `auto_recover` call: the forced-cleanup behaviour
and start outcome of the restart, and the verification probe. Only used
once the failure threshold has been reached. -/
structure RecoverEnv where
  rtermEnv : TermEnv
  restartOut : StartOutcome
  recheckNow : Nat
  recheckProbe : ProbeRes

/-- `HealthMonitor.auto_recover`: a no-op returning false while
`consecutive_failures < max_failures`; otherwise kills zombies, restarts
the server, and re-runs `check_mcp_server`, returning true (and resetting
the counter) exactly when the re-check is healthy; any exception during
recovery is caught and yields false. -/
def auto_recover (env : RecoverEnv) (s : SysState) : Bool × SysState :=
  if s.health.consecutiveFailures < s.health.maxFailures then (false, s)
  else
    let s1 := kill_zombie_processes s
    match restart_server env.rtermEnv env.restartOut s1 with
    | .error sE => (false, sE)
    | .ok s2 =>
      match check_mcp_server env.recheckNow env.recheckProbe s2 with
      | (true, s3) => (true, { s3 with health := { s3.health with consecutiveFailures := 0 } })
      | (false, s3) => (false, s3)

/-- The effective timeout applied by `call_tool` before the `tools/call`
round trip: widened to at least 180s when the tool name contains `agent`,
`build` or `prompt` as a substring. Timeouts are rationals, standing in
for exactly representable Python floats. -/
def effective_timeout (name : String) (timeout : ℚ) : ℚ :=
  if strInStr "agent" name || strInStr "build" name || strInStr "prompt" name then
    max timeout 180
  else timeout

/-- The contribution of one `content` item in `call_tool`: the item's
`text` value when the item is a dict with a `text` key, else the Python
stringification of the item (abstracted by `pyStr`), which is always a
string. -/
def content_item (pyStr : Json → String) (item : Json) : Json :=
  match item with
  | .obj fs =>
    match jsonGet fs "text" with
    | some v => v
    | none => .str (pyStr item)
  | _ => .str (pyStr item)

/-- Extracts a JSON string, when the value is one. -/
def jsonAsStr : Json → Option String
  | .str s => some s
  | _ => none

/-- Python `"\n".join(output)` over a list of values: succeeds with the
intercalation iff every element is a string, and raises a TypeError
(modelled as `none`) otherwise. -/
def pyJoinLines (xs : List Json) : Option String :=
  (xs.mapM jsonAsStr).map (String.intercalate "\n")

/-- The dictionary returned by a successful `call_tool`. -/
structure ToolCallReturn where
  tool : String
  arguments : Json
  result : String
  is_error : Json

/-- The result-unpacking tail of `call_tool` applied to the `result`
value of a `tools/call` response: reads `content` (default `[]`), maps
each item through `content_item`, joins with newlines, and reads
`isError` (default `False`). Error cases model Python exceptions: a
non-dict result (AttributeError on `.get`), a non-list `content`
(TypeError on iteration), or a non-string join element (TypeError). -/
def call_tool_unpack (pyStr : Json → String) (name : String) (args : Json)
    (result : Json) : Except Unit ToolCallReturn :=
  match result with
  | .obj fs =>
    let content : Json := (jsonGet fs "content").getD (.arr [])
    match content with
    | .arr items =>
      match pyJoinLines (items.map (content_item pyStr)) with
      | some joined =>
        .ok { tool := name
              arguments := args
              result := joined
              is_error := (jsonGet fs "isError").getD (.bool false) }
      | none => .error ()
    | _ => .error ()
  | _ => .error ()

/-- `MCPConnectionManager.call_tool`: ensures connectivity (raising
"Failed to connect" when `ensure_connected` reports false), defaults the
arguments to `{}`, widens the timeout for agent/build/prompt tools, sends
`tools/call` with the effective timeout, and unpacks the result. Returns
the outcome, the state afterwards, and the timeout actually passed to
`_send_request` (`none` when the round trip was never reached). -/
def call_tool (pyStr : Json → String) (eenv : EnsureEnv) (senv : SendOutcome)
    (name : String) (arguments : Option Json) (timeout : ℚ) (s : SysState) :
    Except SysState (ToolCallReturn × SysState) × Option ℚ :=
  match ensure_connected eenv s with
  | .error sE => (.error sE, none)
  | .ok (false, s1) => (.error s1, none)
  | .ok (true, s1) =>
    let args := arguments.getD (.obj [])
    let t := effective_timeout name timeout
    let r := send_request senv s1
    match r.outcome with
    | .error () => (.error r.state, some t)
    | .ok result =>
      match call_tool_unpack pyStr name args result with
      | .ok ret => (.ok (ret, r.state), some t)
      | .error () => (.error r.state, some t)

/-- `MCPConnectionManager.register_client`: appends the client id unless
it is already registered. -/
def register_client (cid : Nat) (s : SysState) : SysState :=
  if s.mgr.clients.contains cid then s
  else { s with mgr := { s.mgr with clients := s.mgr.clients ++ [cid] } }

/-- `MCPConnectionManager.unregister_client`: removes the client id when
present (`list.remove` drops the first occurrence). -/
def unregister_client (cid : Nat) (s : SysState) : SysState :=
  if s.mgr.clients.contains cid then
    { s with mgr := { s.mgr with clients := s.mgr.clients.erase cid } }
  else s

/-- `MCPConnectionManager.get_active_client_count`. -/
def get_active_client_count (s : SysState) : Nat :=
  s.mgr.clients.length

/-- The per-façade state of a `UnifiedMCPClient`: its identity as a
client and its `_registered` flag. -/
structure Facade where
  id : Nat
  registered : Bool
deriving DecidableEq, Repr

/-- `UnifiedMCPClient.disconnect`: unregisters the façade when it was
registered, then triggers full manager cleanup exactly when the active
client count is zero afterwards. Returns the façade, the manager state,
and whether cleanup was triggered. -/
def client_disconnect (f : Facade) (tenv : TermEnv) (s : SysState) :
    Facade × SysState × Bool :=
  let fs1 : Facade × SysState :=
    if f.registered then ({ f with registered := false }, unregister_client f.id s)
    else (f, s)
  if get_active_client_count fs1.2 == 0 then
    (fs1.1, (cleanup true tenv fs1.2).1, true)
  else (fs1.1, fs1.2, false)

/-- `UnifiedMCPClient.__init__`: stores command/env on the façade, fetches
the singleton manager, calls `configure(command, env)` on it, and starts
unregistered. Returns the façade state and the manager state after
`configure`. -/
def client_init (fid : Nat) (command : String)
    (env : Option (List (String × String))) (s : SysState) :
    Facade × SysState :=
  (⟨fid, false⟩, configure command env s)

/-- Class-level singleton state of `MCPConnectionManager`: the `_instance`
class variable (id of the registered singleton, if any), the ids of every
instance successfully constructed so far (fresh ids in order), and the
next fresh id. -/
structure ClassState where
  instanceVar : Option Nat
  created : List Nat
  nextId : Nat
deriving DecidableEq, Repr

/-- The class state at process start. -/
def initClassState : ClassState :=
  { instanceVar := none, created := [], nextId := 0 }

/-- The two ways an instance can come into being: `get_instance()` or a
direct `MCPConnectionManager()` construction attempt. -/
inductive InstOp where
  | getInstance : InstOp
  | construct : InstOp
deriving DecidableEq, Repr

/-- Observable outcome of one `InstOp`. -/
inductive InstEv where
  | got : Nat → InstEv
  | constructed : Nat → InstEv
  | constructFailed : InstEv
deriving DecidableEq, Repr

/-- `MCPConnectionManager.__init__` as seen from the class state: raises
RuntimeError iff the `_instance` class variable is set; otherwise a fresh
instance exists (note: `__init__` does not set `_instance`). -/
def construct_step (c : ClassState) : ClassState × InstEv :=
  match c.instanceVar with
  | some _ => (c, .constructFailed)
  | none =>
    ({ c with created := c.created ++ [c.nextId], nextId := c.nextId + 1 },
     .constructed c.nextId)

/-- `MCPConnectionManager.get_instance`: constructs and registers the
singleton when `_instance` is unset, else returns the registered one. -/
def get_instance_step (c : ClassState) : ClassState × InstEv :=
  match c.instanceVar with
  | some i => (c, .got i)
  | none =>
    ({ c with
        instanceVar := some c.nextId
        created := c.created ++ [c.nextId]
        nextId := c.nextId + 1 },
     .got c.nextId)

/-- One step of the instance lifecycle. -/
def inst_step (c : ClassState) : InstOp → ClassState × InstEv
  | .getInstance => get_instance_step c
  | .construct => construct_step c

/-- Runs a sequence of lifecycle operations from a class state, returning
the final state and the event trace. -/
def inst_run (c : ClassState) : List InstOp → ClassState × List InstEv
  | [] => (c, [])
  | op :: ops =>
    let r := inst_step c op
    let rest := inst_run r.1 ops
    (rest.1, r.2 :: rest.2)

/-- Runs a sequence of `_send_request` calls, returning the final state
and the concatenation of all request ids written to the subprocess. -/
def run_sends (s : SysState) : List SendOutcome → SysState × List Nat
  | [] => (s, [])
  | o :: os =>
    let r := send_request o s
    let rest := run_sends r.state os
    (rest.1, r.written ++ rest.2)

/-- Whether an `Except` result is a raised exception. -/
def exceptRaised {ε α : Type} : Except ε α → Bool
  | .error _ => true
  | .ok _ => false

/-- C10: every `configure(command, env)` call replaces the stored
environment-override map entirely — `env = none` stores an empty map,
discarding all previous overrides — and modifies no manager state other
than the stored command and env map; since `UnifiedMCPClient.__init__`
calls `configure`, constructing a façade without an env argument clears
overrides configured by an earlier façade. -/
theorem configure_replaces_env_and_frames (command : String)
    (env : Option (List (String × String))) (s : SysState) (fid : Nat)
    (m : List (String × String)) (c0 : String) :
    (configure command env s).mgr.serverCommand = command ∧
    (configure command (some m) s).mgr.serverEnv = m ∧
    (configure command none s).mgr.serverEnv = [] ∧
    (configure command env s).mgr.serverProcess = s.mgr.serverProcess ∧
    (configure command env s).mgr.processAlive = s.mgr.processAlive ∧
    (configure command env s).mgr.clients = s.mgr.clients ∧
    (configure command env s).mgr.isShuttingDown = s.mgr.isShuttingDown ∧
    (configure command env s).mgr.requestId = s.mgr.requestId ∧
    (configure command env s).health = s.health ∧
    (client_init fid command none (configure c0 (some m) s)).2.mgr.serverEnv = [] ∧
    (client_init fid command env s).2 = configure command env s := by
  simp [configure, client_init]

/-- C6: the timeout used for the `tools/call` round trip equals
`max(timeout, 180)` whenever the tool name contains the substring `agent`,
`build` or `prompt`, and equals the caller-supplied timeout otherwise;
`call_tool` passes exactly this effective timeout whenever the round trip
is reached. -/
theorem call_tool_timeout_widening (pyStr : Json → String) (eenv : EnsureEnv)
    (senv : SendOutcome) (name : String) (args : Option Json) (t : ℚ)
    (s : SysState) :
    ((strInStr "agent" name || strInStr "build" name || strInStr "prompt" name) = true →
      effective_timeout name t = max t 180) ∧
    ((strInStr "agent" name || strInStr "build" name || strInStr "prompt" name) = false →
      effective_timeout name t = t) ∧
    ((call_tool pyStr eenv senv name args t s).2 = none ∨
     (call_tool pyStr eenv senv name args t s).2 = some (effective_timeout name t)) := by
  refine ⟨?_, ?_, ?_⟩
  · intro h
    simp only [effective_timeout, h, if_true]
  · intro h
    simp only [effective_timeout, h, Bool.false_eq_true, if_false]
  · unfold call_tool
    rcases hE : ensure_connected eenv s with sE | ⟨b, s1⟩
    · simp
    · cases b
      · simp
      · rcases hS : (send_request senv s1).outcome with u | r
        · simp [hS]
        · rcases hU : call_tool_unpack pyStr name (args.getD (.obj [])) r with u | ret
          · simp [hS, hU]
          · simp [hS, hU]

/-- Witness for C6: a tool named `agent_something` called with an explicit
10s timeout gets an effective wait budget of exactly 180s, which is at
least 180s. -/
theorem call_tool_timeout_widening_witness :
    effective_timeout "agent_something" 10 = 180 ∧ (180 : ℚ) ≥ 180 := by
  have h := call_tool_timeout_widening (fun _ => "")
    ⟨.notFound, 0, .timeout, .waitOk, .notFound, 0, .timeout⟩ .readTimeout
    "agent_something" none 10 initSysState
  refine ⟨?_, le_refl _⟩
  have h1 := h.1 (by decide)
  rw [h1]
  norm_num [max_eq_right]

/-- C9: `cleanup` never raises (it is a total function on every manager
state); from any non-shutting-down state the subprocess handle is cleared
unconditionally, a second call in a row sends no signal to an
already-absent process, and a call with no handle on entry sends no
signal at all. -/
theorem cleanup_idempotent_and_clears (g1 g2 : Bool) (e1 e2 : TermEnv)
    (s : SysState) (h : s.mgr.isShuttingDown = false) :
    (cleanup g1 e1 s).1.mgr.serverProcess = none ∧
    (cleanup g1 e1 s).1.mgr.isShuttingDown = false ∧
    (s.mgr.serverProcess = none → (cleanup g1 e1 s).2 = []) ∧
    (cleanup g2 e2 (cleanup g1 e1 s).1).2 = [] ∧
    (cleanup g2 e2 (cleanup g1 e1 s).1).1.mgr.serverProcess = none := by
  cases hp : s.mgr.serverProcess <;>
    simp [cleanup, h, hp]

/-- Witness for C9: the double-cleanup facts at a concrete live-server
state. -/
theorem cleanup_idempotent_and_clears_witness :
    (cleanup true TermEnv.waitTimeout
      { mgr := { initManagerState with serverProcess := some 7, processAlive := true }
        health := initHealthState }).1.mgr.serverProcess = none ∧
    (cleanup false TermEnv.waitOk
      (cleanup true TermEnv.waitTimeout
        { mgr := { initManagerState with serverProcess := some 7, processAlive := true }
          health := initHealthState }).1).2 = [] := by
  have h := cleanup_idempotent_and_clears true false TermEnv.waitTimeout TermEnv.waitOk
    { mgr := { initManagerState with serverProcess := some 7, processAlive := true }
      health := initHealthState } (by decide)
  exact ⟨h.1, h.2.2.2.1⟩

/-- C7: `check_mcp_server` records the check timestamp; when the
subprocess is not alive it increments `consecutive_failures` and returns
false with no round trip (the result is independent of the probe and the
manager substate is untouched); otherwise a probe response carrying a
`tools` field resets the counter and yields true, while a missing-field
response, a timeout, or any other exception increments the counter and
yields false — every failure path increments, every success path resets. -/
theorem check_mcp_server_paths (now : Nat) (probe : ProbeRes) (s : SysState) :
    ((check_mcp_server now probe s).2.health.lastCheck = some now) ∧
    (is_server_alive s.mgr = false →
      check_mcp_server now probe s =
        (false, { s with health := { s.health with
                    lastCheck := some now
                    consecutiveFailures := s.health.consecutiveFailures + 1 } }) ∧
      (∀ probe2, check_mcp_server now probe2 s = check_mcp_server now probe s)) ∧
    (is_server_alive s.mgr = true →
      ((check_mcp_server now probe s).1 = true →
        (check_mcp_server now probe s).2.health.consecutiveFailures = 0) ∧
      ((check_mcp_server now probe s).1 = false →
        (check_mcp_server now probe s).2.health.consecutiveFailures =
          s.health.consecutiveFailures + 1) ∧
      (∀ fs, probe = ProbeRes.resp (.obj fs) →
        ((check_mcp_server now probe s).1 = true ↔
          fs.any (fun p => p.1 == "tools") = true)) ∧
      (probe = ProbeRes.timeout → (check_mcp_server now probe s).1 = false) ∧
      (probe = ProbeRes.exc → (check_mcp_server now probe s).1 = false)) := by
  refine ⟨?_, ?_, ?_⟩
  · cases h : is_server_alive s.mgr <;>
      cases probe <;>
        simp [check_mcp_server, h] <;> split <;> simp
  · intro h
    constructor
    · simp [check_mcp_server, h]
    · intro probe2
      cases probe2 <;> cases probe <;> simp [check_mcp_server, h]
  · intro h
    refine ⟨?_, ?_, ?_, ?_, ?_⟩
    · cases probe <;> simp [check_mcp_server, h] <;> split <;> simp_all
    · cases probe <;> simp [check_mcp_server, h] <;> split <;> simp_all
    · intro fs hp
      subst hp
      cases fs with
      | nil => simp [check_mcp_server, h, pyTruthy, pyKeyIn]
      | cons p ps =>
        simp [check_mcp_server, h, pyTruthy, pyKeyIn]
        split <;> simp_all
    · intro hp
      subst hp
      simp [check_mcp_server, h]
    · intro hp
      subst hp
      simp [check_mcp_server, h]

/-- Witness for C7: a check on the fresh (dead-server) state records the
timestamp, returns false, and increments the counter with no round trip. -/
theorem check_mcp_server_paths_witness :
    (check_mcp_server 5 ProbeRes.timeout initSysState).2.health.lastCheck = some 5 ∧
    check_mcp_server 5 ProbeRes.timeout initSysState =
      (false, { initSysState with health := { initSysState.health with
                  lastCheck := some 5
                  consecutiveFailures := initSysState.health.consecutiveFailures + 1 } }) := by
  have h := check_mcp_server_paths 5 ProbeRes.timeout initSysState
  exact ⟨h.1, (h.2.1 (by decide)).1⟩

/-- C8: `auto_recover` is a no-op returning false below the failure
threshold of 3; at or above it, a failing restart (whose exception is
caught) yields false, and a successful restart is followed by a re-check
whose health decides the result, the counter being reset to 0 exactly on
success. -/
theorem auto_recover_threshold (env : RecoverEnv) (s : SysState)
    (hmax : s.health.maxFailures = 3) :
    (s.health.consecutiveFailures < 3 → auto_recover env s = (false, s)) ∧
    (3 ≤ s.health.consecutiveFailures →
      (∀ sE, restart_server env.rtermEnv env.restartOut (kill_zombie_processes s) =
          .error sE → auto_recover env s = (false, sE)) ∧
      (∀ s2, restart_server env.rtermEnv env.restartOut (kill_zombie_processes s) =
          .ok s2 →
        ((auto_recover env s).1 = true ↔
          (check_mcp_server env.recheckNow env.recheckProbe s2).1 = true) ∧
        ((check_mcp_server env.recheckNow env.recheckProbe s2).1 = true →
          (auto_recover env s).2.health.consecutiveFailures = 0))) := by
  constructor
  · intro hlt
    simp [auto_recover, hmax, hlt]
  · intro hge
    have hnlt : ¬ s.health.consecutiveFailures < s.health.maxFailures := by
      rw [hmax]; omega
    constructor
    · intro sE hres
      simp [auto_recover, hnlt, hres]
    · intro s2 hres
      rcases hchk : check_mcp_server env.recheckNow env.recheckProbe s2 with ⟨b, s3⟩
      cases b <;> simp [auto_recover, hnlt, hres, hchk]

/-- Witness for C8: with 2 of 3 failures accumulated, `auto_recover`
returns false and changes nothing. -/
theorem auto_recover_threshold_witness :
    auto_recover ⟨TermEnv.waitOk, StartOutcome.notFound, 0, ProbeRes.timeout⟩
      { mgr := initManagerState
        health := { initHealthState with consecutiveFailures := 2 } } =
    (false, { mgr := initManagerState
              health := { initHealthState with consecutiveFailures := 2 } }) := by
  have h := auto_recover_threshold
    ⟨TermEnv.waitOk, StartOutcome.notFound, 0, ProbeRes.timeout⟩
    { mgr := initManagerState
      health := { initHealthState with consecutiveFailures := 2 } } (by decide)
  exact h.1 (by decide)

/-- C4: `UnifiedMCPClient.disconnect` unregisters the façade and triggers
full manager cleanup exactly when the active client count is zero after
the unregistration; with two façades registered on a live server,
disconnecting the first leaves the subprocess alive with count 1, and
disconnecting the second triggers cleanup, after which the subprocess is
no longer alive. -/
theorem client_disconnect_refcount (a b pid : Nat) (tenv1 tenv2 : TermEnv)
    (s : SysState)
    (hc : s.mgr.clients = [a, b])
    (hp : s.mgr.serverProcess = some pid)
    (ha : s.mgr.processAlive = true)
    (hsd : s.mgr.isShuttingDown = false) :
    (∀ (f : Facade) (te : TermEnv) (t : SysState),
      ((client_disconnect f te t).2.2 = true ↔
        get_active_client_count
          (if f.registered then unregister_client f.id t else t) = 0)) ∧
    ((client_disconnect ⟨a, true⟩ tenv1 s).2.2 = false ∧
     get_active_client_count (client_disconnect ⟨a, true⟩ tenv1 s).2.1 = 1 ∧
     is_server_alive (client_disconnect ⟨a, true⟩ tenv1 s).2.1.mgr = true) ∧
    ((client_disconnect ⟨b, true⟩ tenv2
        (client_disconnect ⟨a, true⟩ tenv1 s).2.1).2.2 = true ∧
     (client_disconnect ⟨b, true⟩ tenv2
        (client_disconnect ⟨a, true⟩ tenv1 s).2.1).2.1.mgr.serverProcess = none ∧
     is_server_alive (client_disconnect ⟨b, true⟩ tenv2
        (client_disconnect ⟨a, true⟩ tenv1 s).2.1).2.1.mgr = false) := by
  refine ⟨?_, ?_⟩
  · intro f te t
    simp only [client_disconnect]
    split
    · split <;> simp_all
    · split <;> simp_all
  · have h1 : client_disconnect ⟨a, true⟩ tenv1 s =
        (⟨a, false⟩, { s with mgr := { s.mgr with clients := [b] } }, false) := by
      simp [client_disconnect, unregister_client, get_active_client_count, hc]
    rw [h1]
    refine ⟨⟨rfl, by simp [get_active_client_count], by simp [is_server_alive, hp, ha]⟩, ?_⟩
    have h2 : unregister_client b { s with mgr := { s.mgr with clients := [b] } } =
        { s with mgr := { s.mgr with clients := [] } } := by
      simp [unregister_client]
    have h3 : client_disconnect ⟨b, true⟩ tenv2
        { s with mgr := { s.mgr with clients := [b] } } =
        (⟨b, false⟩,
         (cleanup true tenv2 { s with mgr := { s.mgr with clients := [] } }).1,
         true) := by
      simp [client_disconnect, h2, get_active_client_count]
    rw [h3]
    have h4 : (cleanup true tenv2 { s with mgr := { s.mgr with clients := [] } }).1 =
        { s with mgr := { s.mgr with
                           clients := []
                           serverProcess := none
                           processAlive := false
                           isShuttingDown := false } } := by
      simp [cleanup, hsd, hp]
    rw [h4]
    exact ⟨rfl, rfl, by simp [is_server_alive]⟩

/-- Witness for C4 at a concrete two-client live-server state. -/
theorem client_disconnect_refcount_witness :
    (client_disconnect ⟨1, true⟩ TermEnv.waitOk
      { mgr := { initManagerState with
                  serverProcess := some 7, processAlive := true, clients := [1, 2] }
        health := initHealthState }).2.2 = false ∧
    (client_disconnect ⟨2, true⟩ TermEnv.waitOk
      (client_disconnect ⟨1, true⟩ TermEnv.waitOk
        { mgr := { initManagerState with
                    serverProcess := some 7, processAlive := true, clients := [1, 2] }
          health := initHealthState }).2.1).2.1.mgr.serverProcess = none := by
  have h := client_disconnect_refcount 1 2 7 TermEnv.waitOk TermEnv.waitOk
    { mgr := { initManagerState with
                serverProcess := some 7, processAlive := true, clients := [1, 2] }
      health := initHealthState } rfl rfl rfl rfl
  exact ⟨h.2.1.1, h.2.2.2.1⟩

/-- A successful `_send_request` on a live server writes exactly the
incremented request id and stores it back in the counter. -/
theorem send_request_ok_shape (r : Json) (s : SysState)
    (h : is_server_alive s.mgr = true) :
    send_request (.okResp r) s =
      ⟨.ok r, { s with mgr := { s.mgr with requestId := s.mgr.requestId + 1 } },
       [s.mgr.requestId + 1]⟩ := by
  simp [send_request, h]

/-- `_send_request` leaves the liveness fields untouched. -/
theorem send_request_preserves_alive (o : SendOutcome) (s : SysState) :
    is_server_alive (send_request o s).state.mgr = is_server_alive s.mgr := by
  unfold send_request
  cases h : is_server_alive s.mgr <;> cases o <;> simp_all [is_server_alive]

/-- Ids written by a run of successful `_send_request` calls on a live
server: the consecutive integers following the current counter value. -/
theorem run_sends_ok_ids (outs : List SendOutcome) :
    ∀ s : SysState, is_server_alive s.mgr = true →
      (∀ o ∈ outs, ∃ r, o = SendOutcome.okResp r) →
      (run_sends s outs).2 = List.range' (s.mgr.requestId + 1) outs.length ∧
      (run_sends s outs).1.mgr.requestId = s.mgr.requestId + outs.length := by
  induction outs with
  | nil =>
    intro s _ _
    simp [run_sends]
  | cons o os ih =>
    intro s h1 h2
    obtain ⟨r, rfl⟩ := h2 o (List.mem_cons_self o os)
    have hsend := send_request_ok_shape r s h1
    have halive2 :
        is_server_alive
          { s with mgr := { s.mgr with requestId := s.mgr.requestId + 1 } }.mgr = true := by
      simpa [is_server_alive] using h1
    have hrec := ih _ halive2 (fun o2 ho => h2 o2 (List.mem_cons_of_mem _ ho))
    simp only [run_sends, hsend] at hrec ⊢
    refine ⟨?_, ?_⟩
    · rw [hrec.1, List.length_cons, List.range'_succ]
      rfl
    · rw [hrec.2, List.length_cons]
      omega

/-- The consecutive integers from any start are strictly increasing. -/
theorem chain_lt_range_one (a n : Nat) : List.Chain' (· < ·) (List.range' a n) := by
  cases n with
  | zero => simp
  | succ m =>
    rw [List.range'_succ]
    exact @List.chain_lt_range' a m 1 Nat.one_pos

/-- C3: a freshly constructed manager starts its request counter at 0, and
for any sequence of N sequential successful `_send_request` calls on one
live manager instance whose counter is fresh, the ids written to the
subprocess are exactly the strictly increasing integers 1, 2, ..., N with
no repeats. -/
theorem request_ids_strictly_increasing (outs : List SendOutcome) (s : SysState)
    (halive : is_server_alive s.mgr = true)
    (hok : ∀ o ∈ outs, ∃ r, o = SendOutcome.okResp r)
    (hfresh : s.mgr.requestId = 0) :
    initSysState.mgr.requestId = 0 ∧
    (run_sends s outs).2 = List.range' 1 outs.length ∧
    List.Chain' (· < ·) (run_sends s outs).2 ∧
    (∀ (g : Bool) (te : TermEnv) (s2 : SysState),
      (cleanup g te s2).1.mgr.requestId = s2.mgr.requestId) ∧
    (∀ (cmd : String) (e : Option (List (String × String))) (s2 : SysState),
      (configure cmd e s2).mgr.requestId = s2.mgr.requestId) ∧
    (∀ (o : SendOutcome) (s2 : SysState),
      s2.mgr.requestId ≤ (send_request o s2).state.mgr.requestId) := by
  have h := run_sends_ok_ids outs s halive hok
  refine ⟨rfl, ?_, ?_, ?_, ?_, ?_⟩
  · rw [h.1, hfresh]
  · rw [h.1]
    exact chain_lt_range_one _ _
  · intro g te s2
    cases hsd : s2.mgr.isShuttingDown <;> cases hp : s2.mgr.serverProcess <;>
      simp [cleanup, hsd, hp]
  · intro cmd e s2
    simp [configure]
  · intro o s2
    cases ha : is_server_alive s2.mgr <;> cases o <;> simp [send_request, ha]

/-- Witness for C3: three successful sends on a live fresh-counter state
write exactly the ids 1, 2, 3. -/
theorem request_ids_strictly_increasing_witness :
    (run_sends
      { mgr := { initManagerState with serverProcess := some 7, processAlive := true }
        health := initHealthState }
      [SendOutcome.okResp .null, SendOutcome.okResp .null,
       SendOutcome.okResp .null]).2 = [1, 2, 3] := by
  have h := request_ids_strictly_increasing
    [SendOutcome.okResp .null, SendOutcome.okResp .null, SendOutcome.okResp .null]
    { mgr := { initManagerState with serverProcess := some 7, processAlive := true }
      health := initHealthState }
    (by decide)
    (by
      intro o ho
      simp only [List.mem_cons, List.not_mem_nil, or_false] at ho
      rcases ho with rfl | rfl | rfl <;> exact ⟨.null, rfl⟩)
    rfl
  rw [h.2.1]
  rfl

/-- Counterexample for C2: `__init__` guards on the `_instance` class
variable, which only `get_instance` ever sets; so a direct construction
made before any `get_instance` call succeeds without registering, a
following `get_instance` creates a second instance, and even a second
direct construction succeeds — the process ends up with two instances. -/
theorem singleton_uniqueness_counterexample :
    (inst_run initClassState [InstOp.construct, InstOp.getInstance]).1.created = [0, 1] ∧
    ¬ (inst_run initClassState [InstOp.construct, InstOp.getInstance]).1.created.length ≤ 1 ∧
    (inst_run initClassState [InstOp.construct, InstOp.construct]).2 =
      [InstEv.constructed 0, InstEv.constructed 1] := by
  decide

/-- C2 amended: once the `_instance` class variable has been set (which
happens exactly on the first `get_instance` call), it never changes,
every `get_instance` returns that same instance, and every direct
construction attempt fails; direct construction attempts made before the
singleton is registered, however, succeed without registering, so more
than one instance can exist. -/
theorem singleton_after_registration (ops : List InstOp) :
    ∀ (c : ClassState) (i : Nat), c.instanceVar = some i →
      (inst_run c ops).1.instanceVar = some i ∧
      (∀ ev ∈ (inst_run c ops).2,
        ev = InstEv.got i ∨ ev = InstEv.constructFailed) := by
  induction ops with
  | nil =>
    intro c i h
    simp [inst_run, h]
  | cons op ops ih =>
    intro c i h
    have hstep : inst_step c op = (c, if op = InstOp.getInstance then InstEv.got i
        else InstEv.constructFailed) := by
      cases op <;> simp [inst_step, get_instance_step, construct_step, h]
    have hrec := ih c i h
    simp only [inst_run, hstep]
    refine ⟨hrec.1, ?_⟩
    intro ev hev
    rcases List.mem_cons.mp hev with rfl | hm
    · cases op <;> simp
    · exact hrec.2 ev hm

/-- Witness for C2's amended claim: from a registered state, a direct
construction then a `get_instance` produce only failure and the
registered instance. -/
theorem singleton_after_registration_witness :
    (inst_run ⟨some 5, [5], 6⟩ [InstOp.construct, InstOp.getInstance]).1.instanceVar =
      some 5 ∧
    (∀ ev ∈ (inst_run ⟨some 5, [5], 6⟩ [InstOp.construct, InstOp.getInstance]).2,
      ev = InstEv.got 5 ∨ ev = InstEv.constructFailed) :=
  singleton_after_registration [InstOp.construct, InstOp.getInstance] ⟨some 5, [5], 6⟩ 5 rfl

/-- Counterexample for C1: with the server alive on entry, a failing
health check triggers `_recover_connection`, which is not wrapped in
try/except inside `ensure_connected`; when the recovery restart fails to
start the subprocess, the RuntimeError propagates to the caller instead
of being converted into a boolean. -/
theorem ensure_connected_raises_on_failed_recovery :
    exceptRaised (ensure_connected
      ⟨StartOutcome.notFound, 0, ProbeRes.timeout, TermEnv.waitOk,
       StartOutcome.notFound, 0, ProbeRes.timeout⟩
      { mgr := { initManagerState with serverProcess := some 7, processAlive := true }
        health := initHealthState }) = true := by
  rfl

/-- C1 amended: `ensure_connected` catches a failure of the initial start
attempt and returns false; when the first health check passes, or when
the recovery cycle completes without raising, it returns the final health
boolean; but when the first health check fails and the recovery restart
raises, the exception propagates to the caller. -/
theorem ensure_connected_boundary (env : EnsureEnv) (s : SysState) :
    (∀ sE, is_server_alive s.mgr = false →
      start_server env.startOut s = .error sE →
      ensure_connected env s = .ok (false, sE)) ∧
    (∀ s0, (is_server_alive s.mgr = true ∧ s0 = s) ∨
        (is_server_alive s.mgr = false ∧ start_server env.startOut s = .ok s0) →
      (∀ s2, check_mcp_server env.now1 env.probe1 s0 = (true, s2) →
        ensure_connected env s = .ok (true, s2)) ∧
      (∀ s2, check_mcp_server env.now1 env.probe1 s0 = (false, s2) →
        (∀ s3, recover_connection env.ctermEnv env.recoverOut s2 = .ok s3 →
          ensure_connected env s = .ok (check_mcp_server env.now2 env.probe2 s3)) ∧
        (∀ sE, recover_connection env.ctermEnv env.recoverOut s2 = .error sE →
          ensure_connected env s = .error sE))) := by
  constructor
  · intro sE hna hse
    simp [ensure_connected, hna, hse]
  · intro s0 h0
    have hstep : (if is_server_alive s.mgr then (false, s)
        else match start_server env.startOut s with
          | .ok s1 => (false, s1)
          | .error s1 => (true, s1)) = (false, s0) := by
      rcases h0 with ⟨ha, rfl⟩ | ⟨hna, hok⟩
      · simp [ha]
      · simp [hna, hok]
    constructor
    · intro s2 hc
      simp [ensure_connected, hstep, hc]
    · intro s2 hc
      constructor
      · intro s3 hr
        simp [ensure_connected, hstep, hc, hr]
      · intro sE hr
        simp [ensure_connected, hstep, hc, hr]

/-- Witness for C1's amended claim: on the fresh (dead-server) state with
a failing start, `ensure_connected` returns false without raising. -/
theorem ensure_connected_boundary_witness :
    ensure_connected
      ⟨StartOutcome.notFound, 1, ProbeRes.timeout, TermEnv.waitOk,
       StartOutcome.notFound, 1, ProbeRes.timeout⟩ initSysState =
      .ok (false, initSysState) :=
  (ensure_connected_boundary
    ⟨StartOutcome.notFound, 1, ProbeRes.timeout, TermEnv.waitOk,
     StartOutcome.notFound, 1, ProbeRes.timeout⟩ initSysState).1
    initSysState rfl rfl

/-- Server liveness depends only on the handle and the poll status. -/
theorem alive_congr (m1 m2 : ManagerState)
    (h1 : m1.serverProcess = m2.serverProcess)
    (h2 : m1.processAlive = m2.processAlive) :
    is_server_alive m1 = is_server_alive m2 := by
  unfold is_server_alive
  rw [h1, h2]

/-- `check_mcp_server` never changes the subprocess handle or its poll
status. -/
theorem check_preserves_live_fields (now : Nat) (probe : ProbeRes) (s : SysState) :
    (check_mcp_server now probe s).2.mgr.serverProcess = s.mgr.serverProcess ∧
    (check_mcp_server now probe s).2.mgr.processAlive = s.mgr.processAlive := by
  cases hs : is_server_alive s.mgr <;> cases probe <;>
    simp [check_mcp_server, hs] <;> split <;> simp

/-- A health check that reports healthy leaves the server alive. -/
theorem check_true_alive (now : Nat) (probe : ProbeRes) (s s2 : SysState)
    (h : check_mcp_server now probe s = (true, s2)) :
    is_server_alive s2.mgr = true := by
  cases hs : is_server_alive s.mgr
  · simp [check_mcp_server, hs] at h
  · have hpres := check_preserves_live_fields now probe s
    rw [h] at hpres
    rw [alive_congr s2.mgr s.mgr hpres.1 hpres.2, hs]

/-- The check-and-recover tail of `ensure_connected` reports true only
with a live final state. -/
theorem ensure_tail_alive (env : EnsureEnv) (s0 s1 : SysState)
    (h : (match check_mcp_server env.now1 env.probe1 s0 with
          | (true, s2) => Except.ok ((true : Bool), s2)
          | (false, s2) =>
            match recover_connection env.ctermEnv env.recoverOut s2 with
            | Except.error sE => Except.error sE
            | Except.ok s3 => Except.ok (check_mcp_server env.now2 env.probe2 s3)) =
        Except.ok ((true : Bool), s1)) :
    is_server_alive s1.mgr = true := by
  rcases hchk : check_mcp_server env.now1 env.probe1 s0 with ⟨b2, s2⟩
  rw [hchk] at h
  cases b2
  · dsimp only at h
    rcases hr : recover_connection env.ctermEnv env.recoverOut s2 with sE | s3
    · rw [hr] at h
      exact Except.noConfusion h
    · rw [hr] at h
      dsimp only at h
      rcases hchk2 : check_mcp_server env.now2 env.probe2 s3 with ⟨b4, s4⟩
      rw [hchk2] at h
      simp only [Except.ok.injEq, Prod.mk.injEq] at h
      rcases h with ⟨rfl, rfl⟩
      exact check_true_alive _ _ _ _ hchk2
  · dsimp only at h
    simp only [Except.ok.injEq, Prod.mk.injEq, true_and] at h
    subst h
    exact check_true_alive _ _ _ _ hchk

/-- When `ensure_connected` reports true, the server is alive in the
resulting state. -/
theorem ensure_ok_true_alive (env : EnsureEnv) (s s1 : SysState)
    (h : ensure_connected env s = .ok (true, s1)) :
    is_server_alive s1.mgr = true := by
  unfold ensure_connected at h
  split at h
  · exact ensure_tail_alive env s s1 h
  · rename_i hna
    rcases hst : start_server env.startOut s with sE | sA
    · rw [hst] at h
      simp at h
    · rw [hst] at h
      exact ensure_tail_alive env sA s1 h

/-- C5: a successful `call_tool` whose `tools/call` response result
carries a content array returns exactly the dictionary
`{tool, arguments (empty object when none), result: the items'
contributions joined with newlines, is_error: the response's isError
value or false when absent}`; tool-level errors reported via `isError`
never raise. -/
theorem call_tool_result_shape (pyStr : Json → String) (eenv : EnsureEnv)
    (name : String) (args : Option Json) (t : ℚ) (s s1 : SysState)
    (fs : List (String × Json)) (items : List Json) (joined : String)
    (hens : ensure_connected eenv s = .ok (true, s1))
    (hcontent : (jsonGet fs "content").getD (.arr []) = .arr items)
    (hjoin : pyJoinLines (items.map (content_item pyStr)) = some joined) :
    (call_tool pyStr eenv (.okResp (.obj fs)) name args t s).1 =
      .ok ({ tool := name
             arguments := args.getD (.obj [])
             result := joined
             is_error := (jsonGet fs "isError").getD (.bool false) },
           { s1 with mgr := { s1.mgr with requestId := s1.mgr.requestId + 1 } }) := by
  have halive := ensure_ok_true_alive eenv s s1 hens
  have hsend := send_request_ok_shape (.obj fs) s1 halive
  have hunpack : call_tool_unpack pyStr name (args.getD (.obj [])) (.obj fs) =
      .ok { tool := name
            arguments := args.getD (.obj [])
            result := joined
            is_error := (jsonGet fs "isError").getD (.bool false) } := by
    simp [call_tool_unpack, hcontent, hjoin]
  simp [call_tool, hens, hsend, hunpack]

/-- Witness for C5: a content array `[{"text":"a"},{"text":"b"}]` with no
`isError` field, called with `arguments = none`, yields exactly
`{tool, arguments: {}, result: "a\nb", is_error: false}`. -/
theorem call_tool_result_shape_witness :
    (call_tool (fun _ => "") ⟨StartOutcome.notFound, 0,
        ProbeRes.resp (.obj [("tools", .arr [])]), TermEnv.waitOk,
        StartOutcome.notFound, 0, ProbeRes.timeout⟩
      (.okResp (.obj [("content",
        .arr [.obj [("text", .str "a")], .obj [("text", .str "b")]])]))
      "mytool" none 120
      { mgr := { initManagerState with serverProcess := some 7, processAlive := true }
        health := initHealthState }).1 =
    .ok ({ tool := "mytool"
           arguments := .obj []
           result := "a\nb"
           is_error := .bool false },
         { mgr := { initManagerState with
                     serverProcess := some 7, processAlive := true, requestId := 2 }
           health := { lastCheck := some 0, consecutiveFailures := 0, maxFailures := 3 } }) := by
  have h := call_tool_result_shape (fun _ => "")
    ⟨StartOutcome.notFound, 0, ProbeRes.resp (.obj [("tools", .arr [])]),
     TermEnv.waitOk, StartOutcome.notFound, 0, ProbeRes.timeout⟩
    "mytool" none 120
    { mgr := { initManagerState with serverProcess := some 7, processAlive := true }
      health := initHealthState }
    { mgr := { initManagerState with
                serverProcess := some 7, processAlive := true, requestId := 1 }
      health := { lastCheck := some 0, consecutiveFailures := 0, maxFailures := 3 } }
    [("content", .arr [.obj [("text", .str "a")], .obj [("text", .str "b")]])]
    [.obj [("text", .str "a")], .obj [("text", .str "b")]]
    "a\nb" rfl rfl rfl
  exact h

end LudusMCP
